import Mathlib

/-!
Verification of the state-management core of a Redux todo application
(src/app/index.jsx). The core consists of two Redux slices — a UI slice
holding three boolean flags and a todos slice holding a list of tasks —
together with the event handlers of the presentation layer that dispatch
actions to them.  Reducers are embedded as pure functions on an explicit
state record; the `nanoid()` fresh-id generator is modelled as a counter
`nextId` carried in the state (its contract is to produce an id distinct
from every previously generated one), and `Date.now()` timestamps are
passed in as explicit `Nat` arguments.
-/

namespace TodoApp

/-- A task record, as built by the `prepare` callback of `addTodo`:
`{ id: nanoid(), title, done: false, createdAt: Date.now() }`. -/
structure Task where
  id : Nat
  title : String
  done : Bool
  createdAt : Nat
  deriving Repr, DecidableEq

/-- The state of `uiSlice`: `{ darkMode: false, showBanner: true,
doneNotificationVisible: false }`. -/
structure UIState where
  darkMode : Bool
  showBanner : Bool
  doneNotificationVisible : Bool
  deriving Repr, DecidableEq

/-- The combined store state.  `items` is the `items` field of the todos
slice (`initialState: { items: [] }`); `nextId` models the state of the
`nanoid()` generator, which hands out fresh identifiers. -/
structure AppState where
  ui : UIState
  items : List Task
  nextId : Nat
  deriving Repr, DecidableEq

/-- The eight reducer actions of the two slices.  `addTodo` carries the
title handed to the `prepare` callback and the `Date.now()` reading. -/
inductive Action where
  | toggleDarkMode
  | dismissBanner
  | showDoneNotification
  | dismissDoneNotification
  | addTodo (title : String) (now : Nat)
  | toggleTodo (id : Nat)
  | removeTodo (id : Nat)
  | clearTodos
  deriving Repr, DecidableEq

/-- JS `String.prototype.trim()`, used as `title.trim()` by the add
handlers: removes leading and trailing whitespace.  Embedded structurally
over the character list so that it evaluates by `decide`. -/
def trimStr (s : String) : String :=
  String.mk (((s.data.dropWhile Char.isWhitespace).reverse.dropWhile
      Char.isWhitespace).reverse)

/-- `toggleTodo` reducer body: `const t = state.items.find(x => x.id ===
action.payload); if (t) t.done = !t.done;` — flips the `done` flag of the
first task whose id matches, and does nothing when none matches. -/
def toggleTodoFn (id : Nat) : List Task → List Task
  | [] => []
  | t :: ts =>
    if t.id = id then { t with done := !t.done } :: ts
    else t :: toggleTodoFn id ts

/-- `removeTodo` reducer body: `state.items = state.items.filter(x => x.id
!== action.payload)`. -/
def removeTodoFn (id : Nat) (items : List Task) : List Task :=
  items.filter fun x => x.id != id

/-- `clearTodos` reducer body: `state.items = state.items.filter(item =>
!item.done)`. -/
def clearTodosFn (items : List Task) : List Task :=
  items.filter fun item => !item.done

/-- One dispatch step of the combined store: each action is handled by the
reducer of its slice and leaves the other slice untouched.  `addTodo`
consumes the next fresh id and prepends (`unshift`) the new task. -/
def reduce (a : Action) (s : AppState) : AppState :=
  match a with
  | .toggleDarkMode => { s with ui := { s.ui with darkMode := !s.ui.darkMode } }
  | .dismissBanner => { s with ui := { s.ui with showBanner := false } }
  | .showDoneNotification =>
      { s with ui := { s.ui with doneNotificationVisible := true } }
  | .dismissDoneNotification =>
      { s with ui := { s.ui with doneNotificationVisible := false } }
  | .addTodo title now =>
      { s with items := ⟨s.nextId, title, false, now⟩ :: s.items,
               nextId := s.nextId + 1 }
  | .toggleTodo id => { s with items := toggleTodoFn id s.items }
  | .removeTodo id => { s with items := removeTodoFn id s.items }
  | .clearTodos => { s with items := clearTodosFn s.items }

/-- The initial store state: both slices at their `initialState`. -/
def initialState : AppState :=
  { ui := { darkMode := false, showBanner := true, doneNotificationVisible := false },
    items := [], nextId := 0 }

/-- Dispatching a sequence of actions in order. -/
def run (as : List Action) (s : AppState) : AppState :=
  as.foldl (fun s a => reduce a s) s

/-- The `addTask` handler of `TodosCard` (also duplicated in
`onSubmitEditing`): `if (!title.trim()) return; dispatch(addTodo(title.trim()));
... Haptics.impactAsync(...)`.  Returns the new state together with the id
allocated for the task, `none` when the guard rejected the title — in that
branch nothing is dispatched and no side effect (haptics, input reset)
runs. -/
def addTask (title : String) (now : Nat) (s : AppState) : AppState × Option Nat :=
  if trimStr title = "" then (s, none)
  else (reduce (.addTodo (trimStr title) now) s, some s.nextId)

/-- The `handleToggleDone` handler of `TodosCard`:
`dispatch(toggleTodo(id)); if (!currentDone) dispatch(showDoneNotification());`. -/
def handleToggleDone (id : Nat) (currentDone : Bool) (s : AppState) : AppState :=
  let s1 := reduce (.toggleTodo id) s
  if !currentDone then reduce .showDoneNotification s1 else s1

/-- The intents the presentation layer can issue, one per event-handler
call site of the source: the add button / submit (`addTask`), the DONE and
Undo buttons (`handleToggleDone` resp. a bare `toggleTodo` dispatch on an
already-done item), the Remove buttons, the Clear Completed button, the
dark-mode switch, and the two banner dismiss buttons.  No call site
dispatches `showDoneNotification` on its own; it is issued only inside
`handleToggleDone`. -/
inductive Intent where
  | addTask (title : String) (now : Nat)
  | toggleTask (id : Nat)
  | removeTask (id : Nat)
  | clearCompleted
  | toggleDarkMode
  | dismissInfoBanner
  | dismissDoneNotification
  deriving Repr, DecidableEq

/-- The dispatch coordinator: applies one intent as the source handlers
do.  For `toggleTask` the `currentDone` argument of `handleToggleDone` is
the `done` flag of the rendered item, i.e. of the first task in the
collection with the given id; when no such task exists only the (no-op)
`toggleTodo` dispatch happens and no notification is shown. -/
def dispatchIntent (i : Intent) (s : AppState) : AppState :=
  match i with
  | .addTask title now => (addTask title now s).1
  | .toggleTask id =>
      match s.items.find? (fun x => x.id == id) with
      | some t => handleToggleDone id t.done s
      | none => reduce (.toggleTodo id) s
  | .removeTask id => reduce (.removeTodo id) s
  | .clearCompleted => reduce .clearTodos s
  | .toggleDarkMode => reduce .toggleDarkMode s
  | .dismissInfoBanner => reduce .dismissBanner s
  | .dismissDoneNotification => reduce .dismissDoneNotification s

/-- The id-generator invariant: every task id was handed out by the
generator (so is below `nextId`), and no two tasks share an id. -/
def goodState (s : AppState) : Prop :=
  (∀ t ∈ s.items, t.id < s.nextId) ∧ (s.items.map Task.id).Nodup

/-- A one-task store used to instantiate theorems at concrete inputs. -/
def sampleState : AppState :=
  { ui := { darkMode := false, showBanner := true,
            doneNotificationVisible := false },
    items := [{ id := 0, title := "a", done := false, createdAt := 0 }],
    nextId := 1 }

/-! ### Helper lemmas about the reducer bodies -/

/-- Toggling preserves the `id`, `title` and `createdAt` fields and the
order of all tasks. -/
lemma toggleTodoFn_map_fields (id : Nat) :
    ∀ items : List Task,
      (toggleTodoFn id items).map (fun t => (t.id, t.title, t.createdAt))
        = items.map (fun t => (t.id, t.title, t.createdAt))
  | [] => rfl
  | t :: ts => by
    by_cases h : t.id = id
    · simp [toggleTodoFn, h]
    · simp [toggleTodoFn, h, toggleTodoFn_map_fields id ts]

/-- Toggling preserves the sequence of ids. -/
lemma toggleTodoFn_map_id (id : Nat) :
    ∀ items : List Task, (toggleTodoFn id items).map Task.id = items.map Task.id
  | [] => rfl
  | t :: ts => by
    by_cases h : t.id = id
    · simp [toggleTodoFn, h]
    · simp [toggleTodoFn, h, toggleTodoFn_map_id id ts]

/-- Toggling an id that no task carries is the identity. -/
lemma toggleTodoFn_eq_of_not_mem (id : Nat) :
    ∀ items : List Task, (∀ t ∈ items, t.id ≠ id) → toggleTodoFn id items = items
  | [], _ => rfl
  | t :: ts, h => by
    have ht : t.id ≠ id := h t (List.mem_cons_self t ts)
    simp only [toggleTodoFn, if_neg ht]
    exact congrArg (t :: ·)
      (toggleTodoFn_eq_of_not_mem id ts fun u hu => h u (List.mem_cons_of_mem t hu))

/-- Toggling the same id twice is the identity on the collection. -/
lemma toggleTodoFn_twice (id : Nat) :
    ∀ items : List Task, toggleTodoFn id (toggleTodoFn id items) = items
  | [] => rfl
  | t :: ts => by
    by_cases h : t.id = id
    · simp [toggleTodoFn, if_pos h]
    · simp [toggleTodoFn, h, toggleTodoFn_twice id ts]

/-- Toggling a present id (at position `i`, ids being distinct) rewrites
exactly that position, flipping only its `done` field. -/
lemma toggleTodoFn_set (id : Nat) :
    ∀ (items : List Task) (i : Nat) (hi : i < items.length),
      (items.map Task.id).Nodup → (items.get ⟨i, hi⟩).id = id →
      toggleTodoFn id items
        = items.set i { items.get ⟨i, hi⟩ with done := !(items.get ⟨i, hi⟩).done }
  | [], i, hi => by simp at hi
  | t :: ts, 0, hi => by
    intro _ hid
    simp only [List.get] at hid
    simp [toggleTodoFn, hid, List.set]
  | t :: ts, i + 1, hi => by
    intro hnd hid
    have hilen : i < ts.length := by simpa using hi
    have hget : ((t :: ts).get ⟨i + 1, hi⟩) = ts.get ⟨i, hilen⟩ := rfl
    rw [hget] at hid
    have hnd2 : t.id ∉ ts.map Task.id ∧ (ts.map Task.id).Nodup := by
      simpa using hnd
    have hmem : id ∈ ts.map Task.id := by
      rw [← hid]
      exact List.mem_map_of_mem Task.id (ts.get_mem i hilen)
    have hne : t.id ≠ id := fun hc => hnd2.1 (hc ▸ hmem)
    have ih := toggleTodoFn_set id ts i hilen hnd2.2 hid
    simp only [toggleTodoFn, if_neg hne, ih, hget]
    rfl

/-- Every reducer step preserves the id-generator invariant. -/
lemma reduce_goodState (a : Action) (s : AppState) (h : goodState s) :
    goodState (reduce a s) := by
  obtain ⟨hb, hnd⟩ := h
  cases a with
  | toggleDarkMode => exact ⟨hb, hnd⟩
  | dismissBanner => exact ⟨hb, hnd⟩
  | showDoneNotification => exact ⟨hb, hnd⟩
  | dismissDoneNotification => exact ⟨hb, hnd⟩
  | addTodo title now =>
    constructor
    · intro t ht
      simp only [reduce, List.mem_cons] at ht ⊢
      rcases ht with rfl | ht
      · exact Nat.lt_succ_self _
      · exact Nat.lt_succ_of_lt (hb t ht)
    · simp only [reduce, List.map_cons, List.nodup_cons]
      refine ⟨?_, hnd⟩
      intro hmem
      obtain ⟨u, hu, hid⟩ := List.mem_map.mp hmem
      exact absurd hid (Nat.ne_of_lt (hb u hu))
  | toggleTodo id =>
    constructor
    · intro t ht
      have hidm : t.id ∈ s.items.map Task.id := by
        rw [← toggleTodoFn_map_id id s.items]
        exact List.mem_map_of_mem Task.id ht
      obtain ⟨u, hu, hid⟩ := List.mem_map.mp hidm
      calc t.id = u.id := hid.symm
        _ < s.nextId := hb u hu
    · show ((toggleTodoFn id s.items).map Task.id).Nodup
      rw [toggleTodoFn_map_id]
      exact hnd
  | removeTodo id =>
    have hsub : (removeTodoFn id s.items).Sublist s.items := List.filter_sublist _
    exact ⟨fun t ht => hb t (hsub.subset ht), hnd.sublist (hsub.map Task.id)⟩
  | clearTodos =>
    have hsub : (clearTodosFn s.items).Sublist s.items := List.filter_sublist _
    exact ⟨fun t ht => hb t (hsub.subset ht), hnd.sublist (hsub.map Task.id)⟩

/-- The invariant is preserved by every action sequence. -/
lemma run_goodState : ∀ (as : List Action) (s : AppState),
    goodState s → goodState (run as s)
  | [], _, h => h
  | a :: as, s, h => run_goodState as _ (reduce_goodState a s h)

/-- The empty store satisfies the invariant. -/
lemma initialState_goodState : goodState initialState := by
  constructor <;> simp [initialState]

/-- No single reducer step turns `showBanner` back on. -/
lemma reduce_showBanner_false (a : Action) (s : AppState)
    (h : s.ui.showBanner = false) : (reduce a s).ui.showBanner = false := by
  cases a <;> simp [reduce, h]

/-- No action sequence turns `showBanner` back on. -/
lemma run_showBanner_false : ∀ (as : List Action) (s : AppState),
    s.ui.showBanner = false → (run as s).ui.showBanner = false
  | [], _, h => h
  | a :: as, s, h => run_showBanner_false as _ (reduce_showBanner_false a s h)

/-! ### Claim theorems -/

/-- Claim C1: when the whitespace-trimmed title is empty the `addTask`
handler is a no-op: the whole store state (collection length and contents,
and the id generator) is unchanged, no id is allocated and the dispatch /
haptics / input-reset branch never runs. -/
theorem addTask_empty_noop (title : String) (now : Nat) (s : AppState)
    (h : trimStr title = "") : addTask title now s = (s, none) := by
  simp [addTask, h]

/-- Witness for C1 on the whitespace-only title. -/
theorem addTask_empty_noop_witness :
    addTask "   " 0 initialState = (initialState, none) :=
  addTask_empty_noop "   " 0 initialState (by decide)

/-- Claim C4: for a title that is non-empty after trimming, `addTask`
prepends exactly one new task, carrying the trimmed title, `done = false`
and `createdAt` equal to the current time and a fresh id, leaves every
pre-existing task unchanged in place, grows the length by one, and
returns the allocated id. -/
theorem addTask_nonempty_prepends (title : String) (now : Nat) (s : AppState)
    (h : trimStr title ≠ "") :
    (addTask title now s).1.items
        = { id := s.nextId, title := trimStr title, done := false,
            createdAt := now } :: s.items ∧
    (addTask title now s).1.items.length = s.items.length + 1 ∧
    (addTask title now s).2 = some s.nextId := by
  refine ⟨?_, ?_, ?_⟩ <;> simp [addTask, h, reduce]

/-- Witness for C4 at the title `" a "`. -/
theorem addTask_nonempty_prepends_witness :
    (addTask " a " 5 initialState).1.items
        = [{ id := 0, title := "a", done := false, createdAt := 5 }] ∧
    (addTask " a " 5 initialState).1.items.length = 1 ∧
    (addTask " a " 5 initialState).2 = some 0 := by
  exact addTask_nonempty_prepends " a " 5 initialState (by decide)

/-- Claim C5: `clearTodos` keeps a subsequence of the collection (so
relative order is preserved), its result holds exactly the tasks that were
present and not done, it is idempotent, and on a collection with no
completed task it leaves the whole state unchanged. -/
theorem clearCompleted_spec (s : AppState) :
    ((reduce .clearTodos s).items).Sublist s.items ∧
    (∀ t, t ∈ (reduce .clearTodos s).items ↔ t ∈ s.items ∧ t.done = false) ∧
    reduce .clearTodos (reduce .clearTodos s) = reduce .clearTodos s ∧
    ((∀ t ∈ s.items, t.done = false) → reduce .clearTodos s = s) := by
  refine ⟨List.filter_sublist _, ?_, ?_, ?_⟩
  · intro t
    simp [reduce, clearTodosFn, List.mem_filter]
  · have hidem : clearTodosFn (clearTodosFn s.items) = clearTodosFn s.items := by
      simp only [clearTodosFn]
      exact List.filter_eq_self.mpr fun a ha => (List.mem_filter.mp ha).2
    calc reduce .clearTodos (reduce .clearTodos s)
        = { s with items := clearTodosFn (clearTodosFn s.items) } := rfl
      _ = { s with items := clearTodosFn s.items } := by rw [hidem]
      _ = reduce .clearTodos s := rfl
  · intro h
    have heq : clearTodosFn s.items = s.items :=
      List.filter_eq_self.mpr fun a ha => by simp [h a ha]
    calc reduce .clearTodos s = { s with items := clearTodosFn s.items } := rfl
      _ = { s with items := s.items } := by rw [heq]
      _ = s := rfl

/-- Witness for C5 on a two-element collection with one completed task. -/
theorem clearCompleted_spec_witness :
    ((reduce .clearTodos
        { ui := { darkMode := false, showBanner := true,
                  doneNotificationVisible := false },
          items := [{ id := 0, title := "a", done := true, createdAt := 0 },
                    { id := 1, title := "b", done := false, createdAt := 0 }],
          nextId := 2 }).items).Sublist
      [{ id := 0, title := "a", done := true, createdAt := 0 },
       { id := 1, title := "b", done := false, createdAt := 0 }] ∧
    reduce .clearTodos initialState = initialState := by
  refine ⟨(clearCompleted_spec _).1, (clearCompleted_spec initialState).2.2.2 ?_⟩
  intro t ht
  simp [initialState] at ht

/-- Claim C6: toggling a present id twice in a row restores the whole
store state, in particular the `done` flag of the task (toggle on a fixed id is
an involution). -/
theorem toggleTask_involution (id : Nat) (s : AppState)
    (h : ∃ t ∈ s.items, t.id = id) :
    reduce (.toggleTodo id) (reduce (.toggleTodo id) s) = s := by
  calc reduce (.toggleTodo id) (reduce (.toggleTodo id) s)
      = { s with items := toggleTodoFn id (toggleTodoFn id s.items) } := rfl
    _ = { s with items := s.items } := by rw [toggleTodoFn_twice]
    _ = s := rfl

/-- Witness for C6 on a singleton collection. -/
theorem toggleTask_involution_witness :
    reduce (.toggleTodo 0) (reduce (.toggleTodo 0)
        { ui := { darkMode := false, showBanner := true,
                  doneNotificationVisible := false },
          items := [{ id := 0, title := "a", done := false, createdAt := 0 }],
          nextId := 1 })
      = { ui := { darkMode := false, showBanner := true,
                  doneNotificationVisible := false },
          items := [{ id := 0, title := "a", done := false, createdAt := 0 }],
          nextId := 1 } :=
  toggleTask_involution 0 _
    ⟨{ id := 0, title := "a", done := false, createdAt := 0 }, by simp, rfl⟩

/-- Claim C7: toggling or removing an id that no task carries leaves the
entire store state unchanged (and, being total functions, the reducers
raise no error). -/
theorem unknown_id_noop (id : Nat) (s : AppState)
    (h : ∀ t ∈ s.items, t.id ≠ id) :
    reduce (.toggleTodo id) s = s ∧ reduce (.removeTodo id) s = s := by
  constructor
  · calc reduce (.toggleTodo id) s
        = { s with items := toggleTodoFn id s.items } := rfl
      _ = { s with items := s.items } := by rw [toggleTodoFn_eq_of_not_mem id s.items h]
      _ = s := rfl
  · have heq : removeTodoFn id s.items = s.items :=
      List.filter_eq_self.mpr fun a ha => by simp [h a ha]
    calc reduce (.removeTodo id) s
        = { s with items := removeTodoFn id s.items } := rfl
      _ = { s with items := s.items } := by rw [heq]
      _ = s := rfl

/-- Witness for C7: id 7 is absent from a singleton collection. -/
theorem unknown_id_noop_witness :
    reduce (.toggleTodo 7)
        { ui := { darkMode := false, showBanner := true,
                  doneNotificationVisible := false },
          items := [{ id := 0, title := "a", done := false, createdAt := 0 }],
          nextId := 1 }
      = { ui := { darkMode := false, showBanner := true,
                  doneNotificationVisible := false },
          items := [{ id := 0, title := "a", done := false, createdAt := 0 }],
          nextId := 1 } :=
  (unknown_id_noop 7 _ (by intro t ht; simp at ht; simp [ht])).1

/-- Claim C9: when ids are distinct and the toggled id sits at position
`i`, toggling rewrites exactly position `i` with only its `done` flag
flipped — id, title and createdAt of every task, the contents of every
other task, and the relative order of all tasks are unchanged. -/
theorem toggleTask_frame (id : Nat) (items : List Task) (i : Nat)
    (hi : i < items.length) (hnd : (items.map Task.id).Nodup)
    (hid : (items.get ⟨i, hi⟩).id = id) :
    toggleTodoFn id items
      = items.set i { items.get ⟨i, hi⟩ with done := !(items.get ⟨i, hi⟩).done } ∧
    (toggleTodoFn id items).map (fun t => (t.id, t.title, t.createdAt))
      = items.map (fun t => (t.id, t.title, t.createdAt)) :=
  ⟨toggleTodoFn_set id items i hi hnd hid, toggleTodoFn_map_fields id items⟩

/-- Witness for C9 on a two-task collection, toggling the second task. -/
theorem toggleTask_frame_witness :
    toggleTodoFn 3
        [{ id := 2, title := "a", done := false, createdAt := 0 },
         { id := 3, title := "b", done := false, createdAt := 1 }]
      = [{ id := 2, title := "a", done := false, createdAt := 0 },
         { id := 3, title := "b", done := true, createdAt := 1 }] ∧
    (toggleTodoFn 3
        [{ id := 2, title := "a", done := false, createdAt := 0 },
         { id := 3, title := "b", done := false, createdAt := 1 }]).map
        (fun t => (t.id, t.title, t.createdAt))
      = [(2, "a", 0), (3, "b", 1)] := by
  exact toggleTask_frame 3 _ 1 (by decide) (by decide) (by decide)

/-- Claim C3: in every state reachable from the initial empty store by a
sequence of the eight reducer actions, no two tasks share an id; moreover
two consecutive (guard-passing) `addTask` calls sharing one timestamp
still produce two front tasks with distinct ids. -/
theorem reachable_ids_nodup (as : List Action) :
    ((run as initialState).items.map Task.id).Nodup ∧
    ∀ (t₁ t₂ : String) (now : Nat), trimStr t₁ ≠ "" → trimStr t₂ ≠ "" →
      ∃ a b rest,
        (addTask t₂ now (addTask t₁ now (run as initialState)).1).1.items
            = a :: b :: rest ∧ a.id ≠ b.id := by
  have hg := run_goodState as initialState initialState_goodState
  refine ⟨hg.2, ?_⟩
  intro t₁ t₂ now h₁ h₂
  refine ⟨{ id := (run as initialState).nextId + 1, title := trimStr t₂,
            done := false, createdAt := now },
          { id := (run as initialState).nextId, title := trimStr t₁,
            done := false, createdAt := now },
          (run as initialState).items, ?_, ?_⟩
  · simp [addTask, h₁, h₂, reduce]
  · simp

/-- Witness for C3 on the empty action sequence and titles "a", "b". -/
theorem reachable_ids_nodup_witness :
    ((run [] initialState).items.map Task.id).Nodup ∧
    ∃ a b rest,
      (addTask "b" 7 (addTask "a" 7 (run [] initialState)).1).1.items
          = a :: b :: rest ∧ a.id ≠ b.id :=
  ⟨(reachable_ids_nodup []).1,
   (reachable_ids_nodup []).2 "a" "b" 7 (by decide) (by decide)⟩

/-- Claim C8: `dismissBanner` turns the info banner off, and once
`showBanner` is false no sequence of the eight actions ever makes it true
again (dismissal is one-way within a session). -/
theorem info_banner_one_way :
    (∀ s : AppState, (reduce .dismissBanner s).ui.showBanner = false) ∧
    ∀ (as : List Action) (s : AppState),
      s.ui.showBanner = false → (run as s).ui.showBanner = false :=
  ⟨fun _ => rfl, run_showBanner_false⟩

/-- Witness for C8: dismiss, then run two further actions. -/
theorem info_banner_one_way_witness :
    (run [Action.toggleDarkMode, Action.showDoneNotification]
        (reduce .dismissBanner initialState)).ui.showBanner = false :=
  info_banner_one_way.2 [Action.toggleDarkMode, Action.showDoneNotification]
    (reduce .dismissBanner initialState) (by decide)

/-- Claim C10: each reducer acts only on its own slice — the four UI-flag
reducers leave the task collection (and the id generator) unchanged, the
four todos reducers leave all three UI flags unchanged, and the
`doneNotificationVisible` flag is raised not by `toggleTodo` itself but by
the separate `showDoneNotification` dispatch that `handleToggleDone`
issues after it. -/
theorem slice_isolation (s : AppState) (title : String) (now : Nat) (id : Nat) :
    (reduce .toggleDarkMode s).items = s.items ∧
    (reduce .dismissBanner s).items = s.items ∧
    (reduce .showDoneNotification s).items = s.items ∧
    (reduce .dismissDoneNotification s).items = s.items ∧
    (reduce .toggleDarkMode s).nextId = s.nextId ∧
    (reduce .dismissBanner s).nextId = s.nextId ∧
    (reduce .showDoneNotification s).nextId = s.nextId ∧
    (reduce .dismissDoneNotification s).nextId = s.nextId ∧
    (reduce (.addTodo title now) s).ui = s.ui ∧
    (reduce (.toggleTodo id) s).ui = s.ui ∧
    (reduce (.removeTodo id) s).ui = s.ui ∧
    (reduce .clearTodos s).ui = s.ui ∧
    handleToggleDone id false s
      = reduce .showDoneNotification (reduce (.toggleTodo id) s) ∧
    handleToggleDone id true s = reduce (.toggleTodo id) s :=
  ⟨rfl, rfl, rfl, rfl, rfl, rfl, rfl, rfl, rfl, rfl, rfl, rfl, rfl, rfl⟩

/-- Claim C2: dispatching the toggle intent on a present task whose `done`
flag is false raises `doneNotificationVisible` in the same step;
dispatching it on a task whose flag is true leaves the notification flag
unchanged; and the only intent that can raise the flag is the toggle
intent applied to a present not-yet-done task. -/
theorem toggle_sets_doneNotification (s : AppState) (id : Nat) (t : Task)
    (i : Intent) (s2 : AppState) :
    (s.items.find? (fun x => x.id == id) = some t →
      (t.done = false →
        (dispatchIntent (.toggleTask id) s).ui.doneNotificationVisible = true) ∧
      (t.done = true →
        (dispatchIntent (.toggleTask id) s).ui.doneNotificationVisible
          = s.ui.doneNotificationVisible)) ∧
    ((dispatchIntent i s2).ui.doneNotificationVisible = true →
      s2.ui.doneNotificationVisible = true ∨
      ∃ id2 t2, i = .toggleTask id2 ∧
        s2.items.find? (fun x => x.id == id2) = some t2 ∧ t2.done = false) := by
  constructor
  · intro hfind
    constructor
    · intro hdone
      simp [dispatchIntent, hfind, handleToggleDone, hdone, reduce]
    · intro hdone
      simp [dispatchIntent, hfind, handleToggleDone, hdone, reduce]
  · intro hvis
    cases i with
    | addTask title now =>
      left
      by_cases hg : trimStr title = ""
      · simpa [dispatchIntent, addTask, hg] using hvis
      · simpa [dispatchIntent, addTask, hg, reduce] using hvis
    | toggleTask id2 =>
      cases hfind : s2.items.find? (fun x => x.id == id2) with
      | none => left; simpa [dispatchIntent, hfind, reduce] using hvis
      | some t2 =>
        cases ht2 : t2.done with
        | false => right; exact ⟨id2, t2, rfl, hfind, ht2⟩
        | true =>
          left
          simpa [dispatchIntent, hfind, handleToggleDone, ht2, reduce] using hvis
    | removeTask id2 => left; simpa [dispatchIntent, reduce] using hvis
    | clearCompleted => left; simpa [dispatchIntent, reduce] using hvis
    | toggleDarkMode => left; simpa [dispatchIntent, reduce] using hvis
    | dismissInfoBanner => left; simpa [dispatchIntent, reduce] using hvis
    | dismissDoneNotification => simp [dispatchIntent, reduce] at hvis

/-- Witness for C2: toggling the single undone task of `sampleState`
raises the flag, and the raised flag is traced back to the toggle
intent. -/
theorem toggle_sets_doneNotification_witness :
    (dispatchIntent (.toggleTask 0) sampleState).ui.doneNotificationVisible
        = true ∧
    (sampleState.ui.doneNotificationVisible = true ∨
      ∃ id2 t2, (Intent.toggleTask 0) = Intent.toggleTask id2 ∧
        sampleState.items.find? (fun x => x.id == id2) = some t2 ∧
        t2.done = false) :=
  ⟨((toggle_sets_doneNotification sampleState 0
      { id := 0, title := "a", done := false, createdAt := 0 }
      (.toggleTask 0) sampleState).1 (by decide)).1 rfl,
   (toggle_sets_doneNotification sampleState 0
      { id := 0, title := "a", done := false, createdAt := 0 }
      (.toggleTask 0) sampleState).2 (by decide)⟩

end TodoApp
